import Mathlib

/-!
Shallow embedding of the DJMix two-deck audio engine
(`src/DJAudioEngine/src/{deck,sync,mixer,audio_engine}.cpp` and
`src/DJAudioEngine/src/dj_audio_internal.h`).

Modelling conventions:
* C++ `double` arithmetic is modelled as exact arithmetic over `ℚ`
  (and over `ℝ` for the transcendental soft-clip stage of the mixer);
* C++ `int64_t` / `int` are modelled as `ℤ` (no operation in the claims
  approaches the 64-bit range);
* `static_cast<int64_t>(double)` is truncation toward zero (`cppTrunc`);
* C++ `%` / `/` on signed integers truncate toward zero (`Int.tmod` /
  `Int.tdiv`); `fmod` on doubles is `cppFmod`;
* the SoundTouch time stretcher is an external component (spec section 1
  declares it out of scope, specified only at its put/receive interface),
  so its state is modelled as a FIFO of buffered output frames.
-/

namespace DJMix

/-- Truncation toward zero: the semantics of `static_cast<int64_t>` applied
to a C++ `double`, modelled over `ℚ`. -/
def cppTrunc (q : ℚ) : ℤ := if 0 ≤ q then ⌊q⌋ else -⌊-q⌋

/-- C `fmod`: remainder of `x / y` carrying the sign of the dividend `x`,
modelled over `ℚ`. -/
def cppFmod (x y : ℚ) : ℚ := x - y * cppTrunc (x / y)

/-- One interleaved stereo frame (left sample, right sample). -/
abbrev Frame : Type := ℚ × ℚ

/-- The zero (silent) stereo frame. -/
def silentFrame : Frame := ((0 : ℚ), (0 : ℚ))

/-- Modelled from the spec: the SoundTouch time stretcher
(`soundtouch::SoundTouch`, external to the repository; spec section 1 lists
it as an out-of-scope collaborator with a put/receive interface, spec
section 4.2 describes feed-until-available / drain usage).  The model keeps
the FIFO of buffered output frames; the DSP rate/pitch conversion applied to
the samples is not modelled (no theorem below depends on the sample values
that cross the stretcher).  The current tempo/pitch parameters mirrored into
SoundTouch by `Deck::setTempo` / `Deck::setPitch` are already recorded in
the deck fields `tempo` / `pitch_semitones`. -/
structure Stretcher where
  buffered : List Frame
deriving DecidableEq

namespace Stretcher

/-- Number of output frames available (`soundtouch::numSamples`). -/
def numSamples (st : Stretcher) : ℕ := st.buffered.length

/-- Modelled from the spec: `putSamples` feeds source frames to the
stretcher; the model appends them to the FIFO. -/
def putSamples (st : Stretcher) (input : List Frame) : Stretcher :=
  ⟨st.buffered ++ input⟩

/-- Drains up to `n` frames (`soundtouch::receiveSamples`): returns the
drained frames and the remaining state. -/
def receiveSamples (st : Stretcher) (n : ℕ) : List Frame × Stretcher :=
  (st.buffered.take n, ⟨st.buffered.drop n⟩)

/-- Discards all internal state (`soundtouch::clear`). -/
def clear : Stretcher := ⟨[]⟩

end Stretcher

/-- Deck state (`class Deck`, `src/DJAudioEngine/src/dj_audio_internal.h`
lines 41-103).  The owned `AudioFile` is inlined as the decoded frame list
`pcm` (its `getTotalSamples()` is `pcm.length`; the unloaded file has
`total_samples_ = 0`, i.e. `pcm = []`). -/
structure Deck where
  sample_rate : ℤ
  pcm : List Frame
  is_playing : Bool
  sample_position : ℤ
  volume : ℚ
  tempo : ℚ
  pitch_semitones : ℚ
  bpm : ℚ
  beat_offset : ℚ
  eq_low : ℚ
  eq_mid : ℚ
  eq_high : ℚ
  stretcher : Stretcher
deriving DecidableEq

namespace Deck

/-- `AudioFile::getTotalSamples()` of the deck's owned audio file. -/
def totalSamples (d : Deck) : ℤ := d.pcm.length

/-- Deck constructor `Deck::Deck(int sample_rate)`
(`deck.cpp` lines 8-27): no track loaded, cursor 0, stopped, volume 1,
tempo 1, pitch 0, bpm 120, beat offset 0, all EQ gains 1, cleared
stretcher. -/
def init (sample_rate : ℤ) : Deck :=
  { sample_rate := sample_rate
    pcm := []
    is_playing := false
    sample_position := 0
    volume := 1
    tempo := 1
    pitch_semitones := 0
    bpm := 120
    beat_offset := 0
    eq_low := 1
    eq_mid := 1
    eq_high := 1
    stretcher := Stretcher.clear }

/-- `Deck::loadTrack` (`deck.cpp` lines 32-47), successful path: the
external decoder produced `newPcm`; playback state is reset and the
stretcher cleared.  (The failing path leaves the deck unchanged.) -/
def loadTrack (d : Deck) (newPcm : List Frame) : Deck :=
  { d with pcm := newPcm
           sample_position := 0
           is_playing := false
           stretcher := Stretcher.clear }

/-- `Deck::stop` (`deck.cpp` lines 69-73). -/
def stop (d : Deck) : Deck :=
  { d with is_playing := false
           sample_position := 0
           stretcher := Stretcher.clear }

/-- `Deck::unloadTrack` (`deck.cpp` lines 49-54): stop, drop the audio
data, clear the stretcher. -/
def unloadTrack (d : Deck) : Deck :=
  { d.stop with pcm := []
                stretcher := Stretcher.clear }

/-- `Deck::play(int64_t startPosition)` (`deck.cpp` lines 56-63; default
argument `-1` per the header line 49).  A non-negative start position is
written to the cursor and the stretcher is cleared before playback starts;
otherwise only the playing flag is set. -/
def play (d : Deck) (startPosition : ℤ) : Deck :=
  if 0 ≤ startPosition then
    { d with sample_position := startPosition
             stretcher := Stretcher.clear
             is_playing := true }
  else
    { d with is_playing := true }

/-- `Deck::pause` (`deck.cpp` lines 65-67). -/
def pause (d : Deck) : Deck := { d with is_playing := false }

/-- `Deck::setPosition(double seconds)` (`deck.cpp` lines 75-84): the
target frame is truncated from seconds, clamped into
`[0, totalSamples]`, and the stretcher is cleared. -/
def setPosition (d : Deck) (seconds : ℚ) : Deck :=
  let new_pos := max 0 (min (cppTrunc (seconds * (d.sample_rate : ℚ))) d.totalSamples)
  { d with sample_position := new_pos
           stretcher := Stretcher.clear }

/-- `Deck::getPosition` (`deck.cpp` lines 86-88). -/
def getPosition (d : Deck) : ℚ := (d.sample_position : ℚ) / (d.sample_rate : ℚ)

/-- `Deck::setVolume` (header line 58): stores the argument, no clamp. -/
def setVolume (d : Deck) (v : ℚ) : Deck := { d with volume := v }

/-- `Deck::setTempo` (`deck.cpp` lines 94-97): saturates to `[0.5, 2.0]`
and mirrors the value into the stretcher parameters. -/
def setTempo (d : Deck) (t : ℚ) : Deck :=
  { d with tempo := max (1/2) (min t 2) }

/-- `Deck::setPitch` (`deck.cpp` lines 99-102): saturates to `[-12, 12]`. -/
def setPitch (d : Deck) (semitones : ℚ) : Deck :=
  { d with pitch_semitones := max (-12) (min semitones 12) }

/-- `Deck::setBPM` (header line 61): stores the argument. -/
def setBPM (d : Deck) (b : ℚ) : Deck := { d with bpm := b }

/-- `Deck::setBeatOffset` (header line 63): stores the argument. -/
def setBeatOffset (d : Deck) (off : ℚ) : Deck := { d with beat_offset := off }

/-- `Deck::setEQLow` (header line 66): stores the argument, no clamp. -/
def setEQLow (d : Deck) (g : ℚ) : Deck := { d with eq_low := g }

/-- `Deck::setEQMid` (header line 67): stores the argument, no clamp. -/
def setEQMid (d : Deck) (g : ℚ) : Deck := { d with eq_mid := g }

/-- `Deck::setEQHigh` (header line 68): stores the argument, no clamp. -/
def setEQHigh (d : Deck) (g : ℚ) : Deck := { d with eq_high := g }

/-- `Deck::setSamplePosition(int64_t pos, bool forceSync)` (`deck.cpp`
lines 104-118): writes the cursor; clears the stretcher when forced, or
when the jump exceeds one second of frames. -/
def setSamplePosition (d : Deck) (pos : ℤ) (forceSync : Bool) : Deck :=
  let old_pos := d.sample_position
  let d' := { d with sample_position := pos }
  if forceSync then
    { d' with stretcher := Stretcher.clear }
  else
    if |pos - old_pos| > d.sample_rate then
      { d' with stretcher := Stretcher.clear }
    else
      d'

/-- `Deck::getPhase` (`deck.cpp` lines 120-138): fractional position within
the current beat; 0 when the BPM, or the truncated samples-per-beat, is not
positive.  The C++ `%` on `int64_t` truncates (`Int.tmod`); the negative
case is fixed up by adding one beat. -/
def getPhase (d : Deck) : ℚ :=
  if d.bpm ≤ 0 then 0
  else
    let seconds_per_beat := 60 / d.bpm
    let samples_per_beat := cppTrunc (seconds_per_beat * (d.sample_rate : ℚ))
    if samples_per_beat ≤ 0 then 0
    else
      let offset_samples := cppTrunc (d.beat_offset * (d.sample_rate : ℚ))
      let adjusted_position := d.sample_position - offset_samples
      let samples_into_beat := Int.tmod adjusted_position samples_per_beat
      let samples_into_beat :=
        if samples_into_beat < 0 then samples_into_beat + samples_per_beat
        else samples_into_beat
      (samples_into_beat : ℚ) / (samples_per_beat : ℚ)

/-- `Deck::applyEQ` (`deck.cpp` lines 209-224) applied to one frame: both
channels are scaled by the mean of the three band gains. -/
def applyEQ (d : Deck) (f : Frame) : Frame :=
  let avg_gain := (d.eq_low + d.eq_mid + d.eq_high) / 3
  (f.1 * avg_gain, f.2 * avg_gain)

/-- Scaling applied to produced frames in `Deck::readSamples`: `applyEQ`
followed by the volume multiplication. -/
def scaleFrame (d : Deck) (f : Frame) : Frame :=
  let e := d.applyEQ f
  (e.1 * d.volume, e.2 * d.volume)

end Deck

/-- Feed phase of the stretch path of `Deck::readSamples` (`deck.cpp`
lines 176-191): while the stretcher has fewer than `frames` output frames,
feed up to `CHUNK_SIZE = 4096` source frames from the cursor and advance
the cursor; stop playback and break when the source is exhausted.  Returns
the new cursor, playing flag and stretcher state. -/
def feedStretcher (frames : ℕ) (pcm : List Frame) (pos : ℤ) (playing : Bool)
    (st : Stretcher) : ℤ × Bool × Stretcher :=
  if st.numSamples < frames then
    if (pcm.length : ℤ) - pos ≤ 0 then
      (pos, false, st)
    else
      feedStretcher frames pcm (pos + min 4096 ((pcm.length : ℤ) - pos)) playing
        (st.putSamples
          ((pcm.drop pos.toNat).take (min 4096 ((pcm.length : ℤ) - pos)).toNat))
  else
    (pos, playing, st)
termination_by ((pcm.length : ℤ) - pos).toNat
decreasing_by
  omega

namespace Deck

/-- `Deck::readSamples(float* output, int frames)` (`deck.cpp` lines
140-207).  Returns the updated deck and the `frames` stereo frames written
to `output` (which the C++ zero-initializes up front, so every frame not
produced from the source is silent). -/
def readSamples (d : Deck) (frames : ℕ) : Deck × List Frame :=
  if d.is_playing = false ∨ d.totalSamples = 0 then
    (d, List.replicate frames silentFrame)
  else if |d.tempo - 1| < 1/1000 ∧ |d.pitch_semitones| < 1/10 then
    let remaining := d.totalSamples - d.sample_position
    if remaining ≤ 0 then
      ({ d with is_playing := false }, List.replicate frames silentFrame)
    else
      let to_read := min (frames : ℤ) remaining
      let source := (d.pcm.drop d.sample_position.toNat).take to_read.toNat
      let out := source.map d.scaleFrame
                   ++ List.replicate (frames - to_read.toNat) silentFrame
      ({ d with sample_position := d.sample_position + to_read }, out)
  else
    let fed := feedStretcher frames d.pcm d.sample_position d.is_playing d.stretcher
    let received := (fed.2.2.receiveSamples frames).1
    let out := received.map d.scaleFrame
                 ++ List.replicate (frames - received.length) silentFrame
    ({ d with sample_position := fed.1
              is_playing := fed.2.1
              stretcher := (fed.2.2.receiveSamples frames).2 }, out)

end Deck

/-- Mixer state (`class Mixer`, `dj_audio_internal.h` lines 106-117). -/
structure Mixer where
  crossfader_position : ℚ
deriving DecidableEq

namespace Mixer

/-- Mixer constructor (`mixer.cpp` lines 7-10): crossfader centred. -/
def init : Mixer := ⟨1/2⟩

/-- `Mixer::setCrossfader` (`dj_audio_internal.h` line 110): stores the
argument, no clamp. -/
def setCrossfader (_ : Mixer) (position : ℚ) : Mixer := ⟨position⟩

end Mixer

/-- Sample-wise saturating soft clip of `Mixer::mix` (`mixer.cpp` lines
30-36): the identity inside `[-1, 1]`, `1 - exp(1 - x)` above `1` and
`-1 + exp(1 + x)` below `-1`. -/
noncomputable def softClip (x : ℝ) : ℝ :=
  if 1 < x then 1 - Real.exp (1 - x)
  else if x < -1 then -1 + Real.exp (1 + x)
  else x

/-- Per-sample arithmetic of `Mixer::mix` (`mixer.cpp` lines 22-36): the
equal-power crossfade of one sample from each deck followed by the soft
clip.  The angle factor is the float literal `1.5707963f` of the source. -/
noncomputable def mixSample (cross : ℚ) (a b : ℚ) : ℝ :=
  let angle := (cross : ℝ) * 1.5707963
  let gain_a := Real.cos angle
  let gain_b := Real.sin angle
  softClip ((a : ℝ) * gain_a + (b : ℝ) * gain_b)

/-- Deck-state effect of `Mixer::mix` (`mixer.cpp` lines 12-18): both decks
are read for `frames` frames into the scratch buffers.  Returns the updated
decks together with the two scratch buffers (whose pointwise `mixSample`
combination is what the callback writes to the device). -/
def Mixer.mixReads (da db : Deck) (frames : ℕ) :
    (Deck × Deck) × (List Frame × List Frame) :=
  let ra := da.readSamples frames
  let rb := db.readSamples frames
  ((ra.1, rb.1), (ra.2, rb.2))

/-- Sync pair state (`SyncManager::SyncState`,
`dj_audio_internal.h` lines 131-135). -/
structure SyncState where
  enabled : Bool
  master_deck_id : ℤ
  slave_deck_id : ℤ
deriving DecidableEq

/-- Sync manager state: the guarded pair plus the `static int
frame_counter` that `SyncManager::update` keeps across calls
(`sync.cpp` line 97). -/
structure SyncManager where
  sync_state : SyncState
  frame_counter : ℤ
deriving DecidableEq

/-- Reading one of the two decks by id (`decks[master_id]` /
`decks[slave_id]` after the `0 ≤ id ≤ 1` guard). -/
def getDeck (p : Deck × Deck) (i : ℤ) : Deck := if i = 0 then p.1 else p.2

/-- Writing back one of the two decks by id. -/
def setDeck (p : Deck × Deck) (i : ℤ) (d : Deck) : Deck × Deck :=
  if i = 0 then (d, p.2) else (p.1, d)

namespace SyncManager

/-- `SyncManager::SyncManager` (`sync.cpp` lines 6-10), with the static
`frame_counter` of `update` starting at 0. -/
def init : SyncManager := ⟨⟨false, -1, -1⟩, 0⟩

/-- `SyncManager::enable` (`sync.cpp` lines 12-17). -/
def enable (sm : SyncManager) (slave_deck_id master_deck_id : ℤ) : SyncManager :=
  { sm with sync_state := ⟨true, master_deck_id, slave_deck_id⟩ }

/-- `SyncManager::disable` (`sync.cpp` lines 19-26): clears the pair only
when the given deck is the current slave. -/
def disable (sm : SyncManager) (deck_id : ℤ) : SyncManager :=
  if sm.sync_state.slave_deck_id = deck_id then
    { sm with sync_state := ⟨false, -1, -1⟩ }
  else sm

/-- `SyncManager::alignNow(Deck* slave, Deck* master)` (`sync.cpp` lines
28-69).  The master is only read, so the function returns the updated
slave.  The sample rate is the hard-coded `44100` of the source.  Note the
final `setSamplePosition(target_pos)` uses the default `forceSync = false`
of the header. -/
def alignNow (slave master : Deck) : Deck :=
  if master.bpm ≤ 0 ∨ slave.bpm ≤ 0 then slave
  else
    let tempoRatio := master.bpm / slave.bpm
    let slave1 := slave.setTempo tempoRatio
    let sample_rate : ℤ := 44100
    let master_offset_samples := cppTrunc (master.beat_offset * (sample_rate : ℚ))
    let master_adjusted_pos := master.sample_position - master_offset_samples
    let master_seconds_per_beat := 60 / master.bpm
    let master_samples_per_beat :=
      cppTrunc (master_seconds_per_beat * (sample_rate : ℚ))
    let master_phase :=
      ((Int.tmod master_adjusted_pos master_samples_per_beat : ℤ) : ℚ) /
        (master_samples_per_beat : ℚ)
    let master_phase := if master_phase < 0 then master_phase + 1 else master_phase
    let slave_seconds_per_beat := 60 / (slave.bpm * tempoRatio)
    let slave_samples_per_beat :=
      cppTrunc (slave_seconds_per_beat * (sample_rate : ℚ))
    let slave_offset_samples := cppTrunc (slave.beat_offset * (sample_rate : ℚ))
    let slave_current_pos := slave1.sample_position
    let slave_adjusted_pos := slave_current_pos - slave_offset_samples
    let current_beat := Int.tdiv slave_adjusted_pos slave_samples_per_beat
    let target_pos := slave_offset_samples + current_beat * slave_samples_per_beat +
      cppTrunc (master_phase * (slave_samples_per_beat : ℚ))
    if 0 ≤ target_pos ∧ target_pos < slave_current_pos + slave_samples_per_beat then
      slave1.setSamplePosition target_pos false
    else
      slave1

/-- Third-callback phase-correction block of `SyncManager::update`
(`sync.cpp` lines 104-137), acting on the (already tempo-matched) slave
deck: normalize the phase difference to the shortest path in
`[-1/2, 1/2]`; when its magnitude exceeds 0.02 of a beat, move the slave
cursor by the truncated correction, clamped to 50 ms of the hard-coded
44100 Hz rate, provided the corrected position is non-negative. -/
def phaseCorrect (slave : Deck) (master_phase slave_phase slave_bpm tempoRatio : ℚ) :
    Deck :=
  let phase_diff := master_phase - slave_phase
  let phase_diff := if phase_diff > 1/2 then phase_diff - 1 else phase_diff
  let phase_diff := if phase_diff < -(1/2) then phase_diff + 1 else phase_diff
  if |phase_diff| > 1/50 then
    let slave_seconds_per_beat := 60 / (slave_bpm * tempoRatio)
    let sample_rate : ℤ := 44100
    let correction_samples :=
      cppTrunc (phase_diff * slave_seconds_per_beat * (sample_rate : ℚ))
    let max_correction := sample_rate / 20
    let correction_samples :=
      max (-max_correction) (min max_correction correction_samples)
    let new_position := slave.sample_position + correction_samples
    if 0 ≤ new_position then slave.setSamplePosition new_position false
    else slave
  else slave

/-- `SyncManager::update(Deck* decks[2])` (`sync.cpp` lines 71-138): the
per-callback steady-state step.  Matches the slave tempo to the BPM ratio
on every call; every third call additionally runs `phaseCorrect` on the
slave (writing the possibly unchanged slave back to the pair). -/
def update (sm : SyncManager) (p : Deck × Deck) : SyncManager × (Deck × Deck) :=
  if sm.sync_state.enabled = false then (sm, p)
  else
    let master_id := sm.sync_state.master_deck_id
    let slave_id := sm.sync_state.slave_deck_id
    if master_id < 0 ∨ master_id > 1 ∨ slave_id < 0 ∨ slave_id > 1 then (sm, p)
    else
      let master_bpm := (getDeck p master_id).bpm
      let slave_bpm := (getDeck p slave_id).bpm
      if master_bpm ≤ 0 ∨ slave_bpm ≤ 0 then (sm, p)
      else
        let tempoRatio := master_bpm / slave_bpm
        let p := setDeck p slave_id ((getDeck p slave_id).setTempo tempoRatio)
        let fc := sm.frame_counter + 1
        if fc < 3 then ({ sm with frame_counter := fc }, p)
        else
          ({ sm with frame_counter := 0 },
           setDeck p slave_id
             (phaseCorrect (getDeck p slave_id)
               ((getDeck p master_id).getPhase) ((getDeck p slave_id).getPhase)
               slave_bpm tempoRatio))

end SyncManager

/-- `deck_play_synced(int deck_id, int master_deck_id)` (`audio_engine.cpp`
lines 183-284), after the id guards, acting on the slave deck (the master
is only read; the debug-log writes are elided).  The sample rate in the
cued-start arithmetic is the hard-coded `44100` of the source, while
`getPosition` uses each deck's own rate. -/
def playSynced (slave master : Deck) : Deck :=
  let master_bpm := master.bpm
  let slave_bpm := slave.bpm
  if master_bpm ≤ 0 ∨ slave_bpm ≤ 0 then slave.play (-1)
  else
    let tempoRatio := master_bpm / slave_bpm
    let slave1 := slave.setTempo tempoRatio
    if |tempoRatio - 1| < 1/100 then slave1.play (-1)
    else
      let sample_rate : ℚ := 44100
      let master_offset := master.beat_offset
      let slave_offset := slave1.beat_offset
      let master_spb := 60 / master_bpm
      let slave_spb := 60 / slave_bpm
      let master_pos := master.getPosition
      let master_grid_pos := master_pos - master_offset
      let master_phase := cppFmod master_grid_pos master_spb
      let master_phase :=
        if master_phase < 0 then master_phase + master_spb else master_phase
      let master_time_to_next_beat := master_spb - master_phase
      let slave_pos := slave1.getPosition
      let slave_grid_pos := slave_pos - slave_offset
      let slave_phase := cppFmod slave_grid_pos slave_spb
      let slave_phase :=
        if slave_phase < 0 then slave_phase + slave_spb else slave_phase
      let slave_time_to_next_beat := slave_spb - slave_phase
      let adjustment := slave_time_to_next_beat - master_time_to_next_beat
      let adjustment :=
        if adjustment > slave_spb / 2 then adjustment - slave_spb else adjustment
      let adjustment :=
        if adjustment < -(slave_spb / 2) then adjustment + slave_spb else adjustment
      let adjustment_samples := cppTrunc (adjustment * sample_rate)
      let slave_current_samples := cppTrunc (slave_pos * sample_rate)
      let target_pos := slave_current_samples - adjustment_samples
      let target_pos := if target_pos < 0 then 0 else target_pos
      slave1.play target_pos

/-- Notifications the audio callback can hand to the host
(`position_callback_t` and `track_ended_callback_t`,
`include/dj_audio_engine.h` lines 53-54). -/
inductive HostEvent where
  | positionUpdate (deck_id : ℤ) (seconds : ℚ)
  | trackEnded (deck_id : ℤ)
deriving DecidableEq

/-- Discriminator for track-ended notifications. -/
def HostEvent.isTrackEnded : HostEvent → Bool
  | .trackEnded _ => true
  | _ => false

/-- Engine state (`struct EngineState`, `dj_audio_internal.h` lines
142-155); the device handle is outside the model, the two callback
pointers are modelled as installed-or-not flags. -/
structure EngineState where
  deck0 : Deck
  deck1 : Deck
  mixer : Mixer
  sync_manager : SyncManager
  callback_counter : ℤ
  has_position_callback : Bool
  has_track_ended_callback : Bool
deriving DecidableEq

/-- `engine_init` state construction (`audio_engine.cpp` lines 56-85). -/
def EngineState.init (sample_rate : ℤ) : EngineState :=
  { deck0 := Deck.init sample_rate
    deck1 := Deck.init sample_rate
    mixer := Mixer.init
    sync_manager := SyncManager.init
    callback_counter := 0
    has_position_callback := false
    has_track_ended_callback := false }

/-- The render callback `audioCallback` (`audio_engine.cpp` lines 13-49):
sync update, then `Mixer::mix` (which reads both decks), then the throttled
position notifications every 10th callback.  Returns the new engine state
and the list of notifications delivered to the host during this callback.
The mixed device buffer is the pointwise `mixSample` of the two scratch
buffers and does not feed back into the state. -/
def audioCallback (e : EngineState) (framesPerBuffer : ℕ) :
    EngineState × List HostEvent :=
  let su := e.sync_manager.update (e.deck0, e.deck1)
  let mr := Mixer.mixReads su.2.1 su.2.2 framesPerBuffer
  let d0 := mr.1.1
  let d1 := mr.1.2
  let counter := e.callback_counter + 1
  if counter ≥ 10 then
    let events :=
      if e.has_position_callback then
        [HostEvent.positionUpdate 0 d0.getPosition,
         HostEvent.positionUpdate 1 d1.getPosition]
      else []
    ({ e with deck0 := d0, deck1 := d1, sync_manager := su.1,
              callback_counter := 0 }, events)
  else
    ({ e with deck0 := d0, deck1 := d1, sync_manager := su.1,
              callback_counter := counter }, [])

/-- Control operations reachable through the host ABI
(`audio_engine.cpp` lines 165-399), plus the driver-invoked render
callback.  Loading carries the decoder's output (the decoder itself is an
external collaborator); the failing-load path leaves the deck unchanged and
is represented by not issuing the operation. -/
inductive EngineOp where
  | loadTrack (deck_id : ℤ) (newPcm : List Frame)
  | unloadTrack (deck_id : ℤ)
  | play (deck_id : ℤ)
  | playSynced (deck_id master_deck_id : ℤ)
  | pause (deck_id : ℤ)
  | stopDeck (deck_id : ℤ)
  | setPosition (deck_id : ℤ) (seconds : ℚ)
  | setVolume (deck_id : ℤ) (v : ℚ)
  | setTempo (deck_id : ℤ) (t : ℚ)
  | setPitch (deck_id : ℤ) (semitones : ℚ)
  | setBPM (deck_id : ℤ) (b : ℚ)
  | setBeatOffset (deck_id : ℤ) (off : ℚ)
  | setEQLow (deck_id : ℤ) (g : ℚ)
  | setEQMid (deck_id : ℤ) (g : ℚ)
  | setEQHigh (deck_id : ℤ) (g : ℚ)
  | setCrossfader (position : ℚ)
  | syncEnable (slave_deck_id master_deck_id : ℤ)
  | syncDisable (deck_id : ℤ)
  | syncAlignNow (slave_deck_id master_deck_id : ℤ)
  | render (framesPerBuffer : ℕ)

namespace EngineState

/-- Reading a deck of the engine by id (after the `0 ≤ id ≤ 1` ABI
guard). -/
def deck (e : EngineState) (i : ℤ) : Deck := if i = 0 then e.deck0 else e.deck1

/-- The id-guarded single-deck mutation shared by all per-deck ABI entry
points (`if (!g_engine || deck_id < 0 || deck_id > 1) return;`). -/
def withDeck (e : EngineState) (i : ℤ) (f : Deck → Deck) : EngineState :=
  if 0 ≤ i ∧ i ≤ 1 then
    if i = 0 then { e with deck0 := f e.deck0 } else { e with deck1 := f e.deck1 }
  else e

/-- The two-id guard of `deck_play_synced` and `sync_align_now`, mutating
the slave deck from the pair. -/
def withSlaveMaster (e : EngineState) (slave_id master_id : ℤ)
    (f : Deck → Deck → Deck) : EngineState :=
  if 0 ≤ slave_id ∧ slave_id ≤ 1 ∧ 0 ≤ master_id ∧ master_id ≤ 1 then
    e.withDeck slave_id (fun s => f s (e.deck master_id))
  else e

/-- One host-ABI control operation or render callback applied to the
engine state (the render callback's host notifications are dropped here;
`audioCallback` retains them). -/
def step (e : EngineState) (op : EngineOp) : EngineState :=
  match op with
  | .loadTrack i newPcm => e.withDeck i (fun d => d.loadTrack newPcm)
  | .unloadTrack i => e.withDeck i Deck.unloadTrack
  | .play i => e.withDeck i (fun d => d.play (-1))
  | .playSynced i j => e.withSlaveMaster i j playSynced
  | .pause i => e.withDeck i Deck.pause
  | .stopDeck i => e.withDeck i Deck.stop
  | .setPosition i sec => e.withDeck i (fun d => d.setPosition sec)
  | .setVolume i v => e.withDeck i (fun d => d.setVolume v)
  | .setTempo i t => e.withDeck i (fun d => d.setTempo t)
  | .setPitch i s => e.withDeck i (fun d => d.setPitch s)
  | .setBPM i b => e.withDeck i (fun d => d.setBPM b)
  | .setBeatOffset i off => e.withDeck i (fun d => d.setBeatOffset off)
  | .setEQLow i g => e.withDeck i (fun d => d.setEQLow g)
  | .setEQMid i g => e.withDeck i (fun d => d.setEQMid g)
  | .setEQHigh i g => e.withDeck i (fun d => d.setEQHigh g)
  | .setCrossfader p => { e with mixer := e.mixer.setCrossfader p }
  | .syncEnable s m => { e with sync_manager := e.sync_manager.enable s m }
  | .syncDisable i => { e with sync_manager := e.sync_manager.disable i }
  | .syncAlignNow s m => e.withSlaveMaster s m SyncManager.alignNow
  | .render frames => (audioCallback e frames).1

/-- Folding a whole sequence of host operations and render callbacks. -/
def run (e : EngineState) (ops : List EngineOp) : EngineState :=
  ops.foldl step e

end EngineState

/-- Claim C8's phase formula, following the spec's words (spec section 4.2,
get_phase): `((cursor_frames - offset_frames) mod samples_per_beat) /
samples_per_beat` with ROUNDED samples-per-beat and offset, the modulus
taken non-negative (`Int.emod`), 0 when the BPM is not positive.  Written
for comparison against `Deck.getPhase`, which is translated from
`deck.cpp`. -/
def getPhaseSpecRounded (d : Deck) : ℚ :=
  if d.bpm ≤ 0 then 0
  else
    let samples_per_beat : ℤ := round ((d.sample_rate : ℚ) * 60 / d.bpm)
    let offset_frames : ℤ := round ((d.sample_rate : ℚ) * d.beat_offset)
    (((d.sample_position - offset_frames) % samples_per_beat : ℤ) : ℚ) /
      (samples_per_beat : ℚ)

/-- Mathematical beat-grid phase of a cursor: the non-negative remainder of
`pos - off` by the beat length `spb`, as a fraction of `spb`. -/
def phaseFrac (pos off spb : ℤ) : ℚ := (((pos - off) % spb : ℤ) : ℚ) / (spb : ℚ)

/-- Both cursors of the engine are non-negative. -/
def cursorsNonneg (e : EngineState) : Prop :=
  0 ≤ e.deck0.sample_position ∧ 0 ≤ e.deck1.sample_position

/-- Demonstration master deck: 120 BPM, zero beat offset, cursor at frame
1000 (1000 frames into its first beat). -/
def alignDemoMaster : Deck :=
  { sample_rate := 44100, pcm := [], is_playing := true, sample_position := 1000,
    volume := 1, tempo := 1, pitch_semitones := 0, bpm := 120, beat_offset := 0,
    eq_low := 1, eq_mid := 1, eq_high := 1, stretcher := ⟨[]⟩ }

/-- Demonstration slave deck: same 120 BPM grid, cursor at frame 500000,
one frame buffered in its stretcher (so that a flush is observable). -/
def alignDemoSlave : Deck :=
  { sample_rate := 44100, pcm := [], is_playing := false, sample_position := 500000,
    volume := 1, tempo := 1, pitch_semitones := 0, bpm := 120, beat_offset := 0,
    eq_low := 1, eq_mid := 1, eq_high := 1, stretcher := ⟨[((1:ℚ)/4, (1:ℚ)/4)]⟩ }

/-- Master deck for the steady-state sync-update scenario: phase 0. -/
def c1Master : Deck :=
  { sample_rate := 44100, pcm := [], is_playing := true, sample_position := 0,
    volume := 1, tempo := 1, pitch_semitones := 0, bpm := 120, beat_offset := 0,
    eq_low := 1, eq_mid := 1, eq_high := 1, stretcher := ⟨[]⟩ }

/-- Slave deck for the steady-state sync-update scenario: phase 1/2 (cursor
at half a beat of the 22050-frame beat grid). -/
def c1Slave : Deck :=
  { sample_rate := 44100, pcm := [], is_playing := true, sample_position := 11025,
    volume := 1, tempo := 1, pitch_semitones := 0, bpm := 120, beat_offset := 0,
    eq_low := 1, eq_mid := 1, eq_high := 1, stretcher := ⟨[]⟩ }

/-- Sync manager with the pair (slave 1, master 0) enabled and the static
frame counter at 2, so the next `update` call is a third callback. -/
def c1Sm : SyncManager := ⟨⟨true, 0, 1⟩, 2⟩

/-- Sync manager with the pair (slave 1, master 0) enabled and the static
frame counter at 0 (a first callback after alignment). -/
def c1SmFresh : SyncManager := ⟨⟨true, 0, 1⟩, 0⟩

/-- Slave deck sitting exactly at frame 22050 (phase 0 of the 120 BPM
grid), with the loaded track abstracted over its sample data. -/
def c3SlaveOn (pcmData : List Frame) : Deck :=
  { sample_rate := 44100, pcm := pcmData,
    is_playing := true, sample_position := 22050,
    volume := 1, tempo := 1, pitch_semitones := 0, bpm := 120, beat_offset := 0,
    eq_low := 1, eq_mid := 1, eq_high := 1, stretcher := ⟨[]⟩ }

/-- Slave deck sitting exactly at the end of a loaded 22050-frame track. -/
def c3Slave : Deck := c3SlaveOn (List.replicate 22050 silentFrame)

/-- Tiny loaded track: three non-silent frames. -/
def c4Track : List Frame :=
  [((1:ℚ)/2, (1:ℚ)/2), ((1:ℚ)/4, (1:ℚ)/4), ((1:ℚ)/8, (1:ℚ)/8)]

/-- Deck 0 playing the three-frame track from its start at native tempo. -/
def c4Deck : Deck :=
  { sample_rate := 44100, pcm := c4Track, is_playing := true, sample_position := 0,
    volume := 1, tempo := 1, pitch_semitones := 0, bpm := 120, beat_offset := 0,
    eq_low := 1, eq_mid := 1, eq_high := 1, stretcher := ⟨[]⟩ }

/-- Engine about to exhaust the three-frame track on deck 0, with both host
callbacks installed. -/
def c4Engine : EngineState :=
  { (EngineState.init 44100) with
    deck0 := c4Deck,
    has_position_callback := true,
    has_track_ended_callback := true }

/-- Deck whose 130 BPM grid exposes the truncation-versus-rounding
difference: `60/130 · 44100 = 20353.846…`, truncated to 20353, rounded to
20354; the cursor sits at frame 20353. -/
def c8Deck : Deck :=
  { sample_rate := 44100, pcm := [], is_playing := true, sample_position := 20353,
    volume := 1, tempo := 1, pitch_semitones := 0, bpm := 130, beat_offset := 0,
    eq_low := 1, eq_mid := 1, eq_high := 1, stretcher := ⟨[]⟩ }

/-! Arithmetic facts about the C-style truncating division, remainder and
cast operators used by the embedding. -/

lemma neg_tmod (a n : ℤ) : Int.tmod (-a) n = -Int.tmod a n := by
  rw [Int.tmod_def, Int.tmod_def, Int.neg_tdiv]
  ring

lemma tmod_emod_congr (a n : ℤ) : Int.tmod a n % n = a % n := by
  conv_rhs => rw [← Int.tdiv_add_tmod a n]
  rw [Int.add_comm, Int.mul_comm, Int.add_mul_emod_self]

lemma neg_lt_tmod (a n : ℤ) (hn : 0 < n) : -n < Int.tmod a n := by
  have h := Int.tmod_lt_of_pos (-a) hn
  rw [neg_tmod] at h
  omega

lemma tmod_fixup (a n : ℤ) (hn : 0 < n) :
    (if Int.tmod a n < 0 then Int.tmod a n + n else Int.tmod a n) = a % n := by
  have hb := Int.tmod_lt_of_pos a hn
  have hlb := neg_lt_tmod a n hn
  have hc := tmod_emod_congr a n
  split_ifs with h
  · rw [← hc, ← Int.add_emod_self]
    exact (Int.emod_eq_of_lt (by omega) (by omega)).symm
  · rw [← hc]
    exact (Int.emod_eq_of_lt (by omega) hb).symm

lemma cppTrunc_of_nonneg {q : ℚ} (h : 0 ≤ q) : cppTrunc q = ⌊q⌋ := if_pos h

lemma cppTrunc_nonneg {q : ℚ} (h : 0 ≤ q) : 0 ≤ cppTrunc q := by
  rw [cppTrunc_of_nonneg h]
  exact Int.floor_nonneg.mpr h

lemma cppTrunc_le {q : ℚ} (h : 0 ≤ q) : (cppTrunc q : ℚ) ≤ q := by
  rw [cppTrunc_of_nonneg h]
  exact Int.floor_le q

lemma lt_cppTrunc_add_one {q : ℚ} (h : 0 ≤ q) : q < (cppTrunc q : ℚ) + 1 := by
  rw [cppTrunc_of_nonneg h]
  exact_mod_cast Int.lt_floor_add_one q

/-- The double-level phase fixup of `sync.cpp` lines 48-49 computes the
mathematical non-negative remainder fraction. -/
lemma phase_fixup_q (a n : ℤ) (hn : 0 < n) :
    (if ((Int.tmod a n : ℤ) : ℚ) / (n : ℚ) < 0
      then ((Int.tmod a n : ℤ) : ℚ) / (n : ℚ) + 1
      else ((Int.tmod a n : ℤ) : ℚ) / (n : ℚ)) =
    ((a % n : ℤ) : ℚ) / (n : ℚ) := by
  have hn' : (0 : ℚ) < (n : ℚ) := by exact_mod_cast hn
  have hfix := tmod_fixup a n hn
  by_cases h : Int.tmod a n < 0
  · rw [if_pos (div_neg_of_neg_of_pos (by exact_mod_cast h) hn'), if_pos h] at *
    rw [← hfix]
    push_cast
    field_simp
  · rw [if_neg h] at hfix
    rw [if_neg (by rw [not_lt] at h ⊢; positivity), hfix]

/-! Field-level reductions for the deck mutators. -/

lemma setTempo_sample_position (d : Deck) (t : ℚ) :
    (d.setTempo t).sample_position = d.sample_position := rfl

lemma setTempo_bpm (d : Deck) (t : ℚ) : (d.setTempo t).bpm = d.bpm := rfl

lemma setTempo_beat_offset (d : Deck) (t : ℚ) :
    (d.setTempo t).beat_offset = d.beat_offset := rfl

lemma setTempo_sample_rate (d : Deck) (t : ℚ) :
    (d.setTempo t).sample_rate = d.sample_rate := rfl

lemma setTempo_stretcher (d : Deck) (t : ℚ) :
    (d.setTempo t).stretcher = d.stretcher := rfl

lemma setTempo_tempo (d : Deck) (t : ℚ) :
    (d.setTempo t).tempo = max (1/2) (min t 2) := rfl

lemma getDeck_setDeck_same (p : Deck × Deck) (i : ℤ) (d : Deck) :
    getDeck (setDeck p i d) i = d := by
  unfold getDeck setDeck
  split_ifs <;> simp_all

/-- C5: readSamples called on a deck that is not playing, or whose loaded
buffer is empty, leaves the deck unchanged and writes exactly-zero samples
for all requested frames of the output buffer. -/
theorem read_silence_when_paused_or_empty (d : Deck) (frames : ℕ)
    (h : d.is_playing = false ∨ d.pcm = []) :
    (d.readSamples frames).2 = List.replicate frames silentFrame ∧
    (d.readSamples frames).1 = d := by
  have h' : d.is_playing = false ∨ d.totalSamples = 0 := by
    rcases h with h | h
    · exact Or.inl h
    · exact Or.inr (by simp [Deck.totalSamples, h])
  rw [Deck.readSamples, if_pos h']
  exact ⟨rfl, rfl⟩

/-- Witness for C5: a freshly constructed (hence stopped and empty) deck
reads pure silence. -/
theorem read_silence_witness :
    ((Deck.init 44100).readSamples 3).2 = List.replicate 3 silentFrame ∧
    ((Deck.init 44100).readSamples 3).1 = Deck.init 44100 :=
  read_silence_when_paused_or_empty (Deck.init 44100) 3 (Or.inl rfl)

/-- Counterexample to C6 as stated: the EQ setters and the crossfader
setter do not saturate; `set_eq_low(-1)` stores `-1` (the claim says `0`)
and `set_crossfader(2)` stores `2` (the claim says `1`). -/
theorem eq_crossfader_no_saturation :
    ((Deck.init 44100).setEQLow (-1)).eq_low = -1 ∧ ((-1 : ℚ) ≠ 0) ∧
    (Mixer.init.setCrossfader 2).crossfader_position = 2 ∧ ((2 : ℚ) ≠ 1) :=
  ⟨rfl, by norm_num, rfl, by norm_num⟩

/-- C6 (amended): `set_tempo` and `set_pitch` saturate to their documented
ranges (`set_tempo(0) ↦ 0.5`, `set_tempo(10) ↦ 2`, `set_pitch(±100) ↦
±12`), while the EQ setters and the crossfader setter store their argument
unchanged, with no saturation at all. -/
theorem setter_saturation_behavior (d : Deck) (m : Mixer) (g p : ℚ) :
    (d.setTempo 0).tempo = 1/2 ∧ (d.setTempo 10).tempo = 2 ∧
    (d.setPitch 100).pitch_semitones = 12 ∧
    (d.setPitch (-100)).pitch_semitones = -12 ∧
    (d.setEQLow g).eq_low = g ∧ (d.setEQMid g).eq_mid = g ∧
    (d.setEQHigh g).eq_high = g ∧
    (m.setCrossfader p).crossfader_position = p := by
  refine ⟨?_, ?_, ?_, ?_, rfl, rfl, rfl, rfl⟩ <;>
    norm_num [Deck.setTempo, Deck.setPitch]

/-- Counterexample to C9 as stated: the soft clip is not monotone.  At
`x = 1` it returns `1`, but just above the knee, at `x = 3/2`, it returns
`1 - exp(-1/2) ≈ 0.39 < 1`, so a larger input yields a smaller output. -/
theorem softClip_not_monotone :
    softClip 1 = 1 ∧ ((1 : ℝ) ≤ 3/2) ∧ softClip (3/2) < softClip 1 := by
  have h1 : softClip 1 = 1 := by norm_num [softClip]
  have h2 : softClip (3/2 : ℝ) = 1 - Real.exp (1 - 3/2) := by
    rw [softClip, if_pos (by norm_num)]
  refine ⟨h1, by norm_num, ?_⟩
  rw [h1, h2]
  have := Real.exp_pos (1 - 3/2 : ℝ)
  linarith

/-- C9 (amended): the sample-wise soft clip produces output of magnitude at
most 1 for every input; it is not monotone (the output drops from 1 toward
0 as the input crosses either knee, see the counterexample). -/
theorem softClip_bounded (x : ℝ) : |softClip x| ≤ 1 := by
  rw [softClip]
  split_ifs with h1 h2
  · have hlt : Real.exp (1 - x) < 1 := by
      have h := Real.exp_lt_exp.mpr (show (1 : ℝ) - x < 0 by linarith)
      simpa using h
    have hpos := Real.exp_pos (1 - x)
    rw [abs_le]
    constructor <;> linarith
  · have hlt : Real.exp (1 + x) < 1 := by
      have h := Real.exp_lt_exp.mpr (show (1 : ℝ) + x < 0 by linarith)
      simpa using h
    have hpos := Real.exp_pos (1 + x)
    rw [abs_le]
    constructor <;> linarith
  · rw [abs_le]
    constructor <;> linarith

/-- C10: play with a negative (absent) start frame only raises the playing
flag: cursor and stretcher state are untouched, so playing after a pause
resumes from exactly the paused position. -/
theorem play_resume_preserves_state (d : Deck) (s : ℤ) (h : s < 0) :
    d.play s = { d with is_playing := true } ∧
    (d.pause.play s).sample_position = d.sample_position ∧
    (d.pause.play s).stretcher = d.stretcher ∧
    (d.pause.play s).is_playing = true := by
  have h' : ¬ 0 ≤ s := by omega
  refine ⟨?_, ?_, ?_, ?_⟩ <;> simp [Deck.play, Deck.pause, h']

/-- Witness for C10 at the default argument `startPosition = -1` on a deck
with a distinctive cursor and stretcher. -/
theorem play_resume_witness :
    alignDemoSlave.play (-1) = { alignDemoSlave with is_playing := true } ∧
    (alignDemoSlave.pause.play (-1)).sample_position =
      alignDemoSlave.sample_position ∧
    (alignDemoSlave.pause.play (-1)).stretcher = alignDemoSlave.stretcher ∧
    (alignDemoSlave.pause.play (-1)).is_playing = true :=
  play_resume_preserves_state alignDemoSlave (-1) (by norm_num)

/-- Counterexample to C8 as stated: `getPhase` truncates
`sample_rate · 60 / bpm` (a C cast), it does not round.  At 130 BPM the
code's beat length is 20353 frames while the claim's rounded beat length is
20354; with the cursor at frame 20353 the code returns phase 0 but the
claimed formula returns 20353/20354. -/
theorem getPhase_truncation_not_rounding :
    c8Deck.getPhase = 0 ∧
    getPhaseSpecRounded c8Deck = 20353/20354 ∧
    ((0 : ℚ) ≠ 20353/20354) := by
  have h1 : Int.tmod 20353 20353 = 0 := by decide
  refine ⟨?_, ?_, by norm_num⟩
  · norm_num [Deck.getPhase, c8Deck, cppTrunc, h1]
  · norm_num [getPhaseSpecRounded, c8Deck, round_eq]

/-- C8 (amended): for `bpm ≤ 0` the phase is 0; it is also 0 whenever the
TRUNCATED (not rounded) samples-per-beat is not positive; otherwise the
phase is the non-negative remainder of the cursor minus the TRUNCATED
offset frames by the truncated samples-per-beat, as a fraction of the beat,
and it lies in `[0, 1)`. -/
theorem getPhase_characterization (d : Deck) :
    (d.bpm ≤ 0 → d.getPhase = 0) ∧
    (cppTrunc (60 / d.bpm * (d.sample_rate : ℚ)) ≤ 0 → d.getPhase = 0) ∧
    (0 < d.bpm → 0 < cppTrunc (60 / d.bpm * (d.sample_rate : ℚ)) →
      d.getPhase = phaseFrac d.sample_position
          (cppTrunc (d.beat_offset * (d.sample_rate : ℚ)))
          (cppTrunc (60 / d.bpm * (d.sample_rate : ℚ))) ∧
      0 ≤ d.getPhase ∧ d.getPhase < 1) := by
  refine ⟨?_, ?_, ?_⟩
  · intro h
    simp [Deck.getPhase, h]
  · intro h
    rcases le_or_lt d.bpm 0 with hb | hb
    · simp [Deck.getPhase, hb]
    · simp [Deck.getPhase, not_le.mpr hb, h]
  · intro hb hspb
    have hb' := not_le.mpr hb
    have hspb' := not_le.mpr hspb
    have heq : d.getPhase = phaseFrac d.sample_position
        (cppTrunc (d.beat_offset * (d.sample_rate : ℚ)))
        (cppTrunc (60 / d.bpm * (d.sample_rate : ℚ))) := by
      simp only [Deck.getPhase]
      rw [if_neg hb', if_neg hspb', tmod_fixup _ _ hspb, phaseFrac]
    refine ⟨heq, ?_, ?_⟩
    · rw [heq, phaseFrac]
      have h1 : 0 ≤ (d.sample_position - cppTrunc (d.beat_offset * (d.sample_rate : ℚ))) %
          cppTrunc (60 / d.bpm * (d.sample_rate : ℚ)) := Int.emod_nonneg _ (by omega)
      positivity
    · rw [heq, phaseFrac]
      have h1 : (d.sample_position - cppTrunc (d.beat_offset * (d.sample_rate : ℚ))) %
          cppTrunc (60 / d.bpm * (d.sample_rate : ℚ)) <
          cppTrunc (60 / d.bpm * (d.sample_rate : ℚ)) := Int.emod_lt_of_pos _ hspb
      rw [div_lt_one (by exact_mod_cast hspb)]
      exact_mod_cast h1

/-- Witness for C8 (amended) at the 130 BPM deck: its positive-BPM branch
applies and yields a phase inside `[0, 1)`. -/
theorem getPhase_characterization_witness :
    0 ≤ c8Deck.getPhase ∧ c8Deck.getPhase < 1 :=
  ⟨((getPhase_characterization c8Deck).2.2 (by norm_num [c8Deck])
      (by norm_num [c8Deck, cppTrunc])).2.1,
   ((getPhase_characterization c8Deck).2.2 (by norm_num [c8Deck])
      (by norm_num [c8Deck, cppTrunc])).2.2⟩

lemma setSamplePosition_small_jump (d : Deck) (pos : ℤ)
    (h : |pos - d.sample_position| ≤ d.sample_rate) :
    d.setSamplePosition pos false = { d with sample_position := pos } := by
  rw [Deck.setSamplePosition]
  simp only [Bool.false_eq_true, if_false]
  rw [if_neg (not_lt.mpr h)]

lemma clamp_correction_abs (c : ℤ) :
    |max (-((44100:ℤ) / 20)) (min ((44100:ℤ) / 20) c)| ≤ 2205 := by
  have h1 : -(2205:ℤ) ≤ max (-((44100:ℤ) / 20)) (min ((44100:ℤ) / 20) c) := by
    norm_num
  have h2 : max (-((44100:ℤ) / 20)) (min ((44100:ℤ) / 20) c) ≤ 2205 := by
    apply max_le (by norm_num)
    calc min ((44100:ℤ) / 20) c ≤ (44100:ℤ) / 20 := min_le_left _ _
    _ = 2205 := by norm_num
  rw [abs_le]
  exact ⟨h1, h2⟩

lemma setDeck_setDeck_same (p : Deck × Deck) (i : ℤ) (d d2 : Deck) :
    setDeck (setDeck p i d) i d2 = setDeck p i d2 := by
  unfold setDeck
  split_ifs <;> rfl

/-- Whatever `phaseCorrect` does, it only ever rewrites the slave's cursor,
by at most 2205 frames (the 50 ms cap at 44100 Hz), and — because such a
jump is below the one-second flush threshold of `setSamplePosition` — it
never clears the stretcher (requires the deck rate to be at least 2205). -/
lemma phaseCorrect_shape (S : Deck) (mp sp b r : ℚ) (S0 : ℤ)
    (hS0 : S.sample_position = S0) (hsr : 2205 ≤ S.sample_rate) :
    ∃ pos : ℤ,
      SyncManager.phaseCorrect S mp sp b r = { S with sample_position := pos } ∧
      |pos - S0| ≤ 2205 := by
  simp only [SyncManager.phaseCorrect]
  split_ifs <;>
    first
    | exact ⟨_, setSamplePosition_small_jump S _
          (by rw [add_sub_cancel_left]
              exact le_trans (clamp_correction_abs _) (by omega)),
        by rw [← hS0, add_sub_cancel_left]
           exact clamp_correction_abs _⟩
    | exact ⟨S0, by rw [← hS0], by simp⟩

/-- Counterexample to C1 as stated: a steady-state sync update with sync
enabled and both BPMs positive (120 each) that DOES move the slave's
cursor.  With the static frame counter at 2 this call is a third callback;
the master is at phase 0 and the slave at phase 1/2, so the update applies
the capped 2205-frame correction: the slave cursor moves from 11025 to
8820. -/
theorem sync_update_moves_slave_cursor :
    c1Sm.sync_state.enabled = true ∧
    0 < c1Master.bpm ∧ 0 < c1Slave.bpm ∧
    (SyncManager.update c1Sm (c1Master, c1Slave)).2.2.sample_position = 8820 ∧
    c1Slave.sample_position = 11025 := by
  have h1 : Int.tmod (0 : ℤ) 22050 = 0 := by decide
  have h2 : Int.tmod (11025 : ℤ) 22050 = 11025 := by decide
  have h3 : (1:ℚ)/50 < |1/2| := by
    rw [abs_of_pos] <;> norm_num
  refine ⟨rfl, by norm_num [c1Master], by norm_num [c1Slave], ?_, rfl⟩
  norm_num [SyncManager.update, SyncManager.phaseCorrect, getDeck, setDeck,
    Deck.setTempo, Deck.getPhase, Deck.setSamplePosition, cppTrunc,
    c1Sm, c1Master, c1Slave, h1, h2, h3]

/-- C1 (amended): with sync enabled, valid deck ids and both BPMs
positive, every render-callback sync update sets the slave's tempo_ratio to
master.bpm / slave.bpm saturated to [0.5, 2]; on callbacks where the
persistent counter has not yet reached 3 nothing else changes (in
particular cursor_frames is untouched); on every third callback the update
may additionally move the slave's cursor_frames — by at most 2205 frames
(50 ms at the hard-coded 44100 Hz) — and still changes nothing else. -/
theorem sync_update_steady_state (sm : SyncManager) (p : Deck × Deck)
    (hen : sm.sync_state.enabled = true)
    (hm01 : sm.sync_state.master_deck_id = 0 ∨ sm.sync_state.master_deck_id = 1)
    (hs01 : sm.sync_state.slave_deck_id = 0 ∨ sm.sync_state.slave_deck_id = 1)
    (hmb : 0 < (getDeck p sm.sync_state.master_deck_id).bpm)
    (hsb : 0 < (getDeck p sm.sync_state.slave_deck_id).bpm)
    (hsr : 2205 ≤ (getDeck p sm.sync_state.slave_deck_id).sample_rate) :
    ((getDeck p sm.sync_state.slave_deck_id).setTempo
        ((getDeck p sm.sync_state.master_deck_id).bpm /
         (getDeck p sm.sync_state.slave_deck_id).bpm)).tempo =
      max (1/2) (min ((getDeck p sm.sync_state.master_deck_id).bpm /
         (getDeck p sm.sync_state.slave_deck_id).bpm) 2) ∧
    (sm.frame_counter + 1 < 3 →
      SyncManager.update sm p =
        ({ sm with frame_counter := sm.frame_counter + 1 },
         setDeck p sm.sync_state.slave_deck_id
           ((getDeck p sm.sync_state.slave_deck_id).setTempo
             ((getDeck p sm.sync_state.master_deck_id).bpm /
              (getDeck p sm.sync_state.slave_deck_id).bpm)))) ∧
    (3 ≤ sm.frame_counter + 1 →
      ∃ pos : ℤ,
        SyncManager.update sm p =
          ({ sm with frame_counter := 0 },
           setDeck p sm.sync_state.slave_deck_id
             { (getDeck p sm.sync_state.slave_deck_id).setTempo
                 ((getDeck p sm.sync_state.master_deck_id).bpm /
                  (getDeck p sm.sync_state.slave_deck_id).bpm) with
               sample_position := pos }) ∧
        |pos - (getDeck p sm.sync_state.slave_deck_id).sample_position| ≤ 2205) := by
  have hguard : ¬ (sm.sync_state.master_deck_id < 0 ∨ sm.sync_state.master_deck_id > 1 ∨
      sm.sync_state.slave_deck_id < 0 ∨ sm.sync_state.slave_deck_id > 1) := by
    rcases hm01 with h | h <;> rcases hs01 with h2 | h2 <;> omega
  have hbpm : ¬ ((getDeck p sm.sync_state.master_deck_id).bpm ≤ 0 ∨
      (getDeck p sm.sync_state.slave_deck_id).bpm ≤ 0) := by
    push_neg
    exact ⟨hmb, hsb⟩
  refine ⟨rfl, ?_, ?_⟩
  · intro hlt
    simp only [SyncManager.update]
    rw [if_neg (by simp [hen]), if_neg hguard, if_neg hbpm, if_pos hlt]
  · intro hge
    simp only [SyncManager.update]
    rw [if_neg (by simp [hen]), if_neg hguard, if_neg hbpm, if_neg (by omega),
      getDeck_setDeck_same]
    obtain ⟨pos, hshape, hbound⟩ := phaseCorrect_shape
      ((getDeck p sm.sync_state.slave_deck_id).setTempo
        ((getDeck p sm.sync_state.master_deck_id).bpm /
         (getDeck p sm.sync_state.slave_deck_id).bpm))
      ((getDeck (setDeck p sm.sync_state.slave_deck_id
          ((getDeck p sm.sync_state.slave_deck_id).setTempo
            ((getDeck p sm.sync_state.master_deck_id).bpm /
             (getDeck p sm.sync_state.slave_deck_id).bpm)))
        sm.sync_state.master_deck_id).getPhase)
      ((getDeck p sm.sync_state.slave_deck_id).setTempo
        ((getDeck p sm.sync_state.master_deck_id).bpm /
         (getDeck p sm.sync_state.slave_deck_id).bpm)).getPhase
      ((getDeck p sm.sync_state.slave_deck_id).bpm)
      ((getDeck p sm.sync_state.master_deck_id).bpm /
       (getDeck p sm.sync_state.slave_deck_id).bpm)
      ((getDeck p sm.sync_state.slave_deck_id).sample_position)
      rfl hsr
    exact ⟨pos, by rw [hshape, setDeck_setDeck_same], hbound⟩

/-- Witness for C1 (amended): a first callback after the counter reset
(counter 0) on the 120/120 BPM pair performs precisely the tempo write. -/
theorem sync_update_steady_state_witness :
    SyncManager.update c1SmFresh (c1Master, c1Slave) =
      ({ c1SmFresh with frame_counter := c1SmFresh.frame_counter + 1 },
       setDeck (c1Master, c1Slave) c1SmFresh.sync_state.slave_deck_id
         ((getDeck (c1Master, c1Slave) c1SmFresh.sync_state.slave_deck_id).setTempo
           ((getDeck (c1Master, c1Slave) c1SmFresh.sync_state.master_deck_id).bpm /
            (getDeck (c1Master, c1Slave) c1SmFresh.sync_state.slave_deck_id).bpm))) :=
  (sync_update_steady_state c1SmFresh (c1Master, c1Slave) rfl (Or.inl rfl)
    (Or.inr rfl)
    (by norm_num [getDeck, c1SmFresh, c1Master])
    (by norm_num [getDeck, c1SmFresh, c1Slave])
    (by norm_num [getDeck, c1SmFresh, c1Slave])).2.1 (by decide)

/-- Counterexample to C2 as stated: `alignNow` does not set the slave's
cursor to the master's cursor, and it does not flush the slave's stretcher.
Master and slave share a 120 BPM grid; the master sits at frame 1000, the
slave at frame 500000.  `alignNow` moves the slave to 486100 (the frame
with the master's phase inside the slave's current beat), not to 1000, and
the one buffered stretcher frame survives because the 13900-frame jump is
below the one-second flush threshold. -/
theorem alignNow_not_master_cursor :
    (SyncManager.alignNow alignDemoSlave alignDemoMaster).sample_position = 486100 ∧
    alignDemoMaster.sample_position = 1000 ∧ ((486100 : ℤ) ≠ 1000) ∧
    (SyncManager.alignNow alignDemoSlave alignDemoMaster).stretcher =
      alignDemoSlave.stretcher ∧
    alignDemoSlave.stretcher ≠ Stretcher.clear := by
  have h1 : Int.tmod 1000 22050 = 1000 := by decide
  have h2 : Int.tdiv 500000 22050 = 22 := by decide
  refine ⟨?_, rfl, by norm_num, ?_, ?_⟩
  · norm_num [SyncManager.alignNow, Deck.setTempo, Deck.setSamplePosition,
      cppTrunc, alignDemoMaster, alignDemoSlave, h1, h2]
  · norm_num [SyncManager.alignNow, Deck.setTempo, Deck.setSamplePosition,
      cppTrunc, alignDemoMaster, alignDemoSlave, h1, h2]
  · simp [alignDemoSlave, Stretcher.clear]

/-- Counterexample to C7 as stated: in the near-equal-tempo branch
(`|ratio − 1| < 0.01`), `deck_play_synced` does NOT delegate to
`align_now`: it leaves the slave's cursor where it was (500000) and merely
starts playback, whereas `align_now` on the same decks would have moved the
cursor to 486100. -/
theorem playSynced_does_not_align :
    |alignDemoMaster.bpm / alignDemoSlave.bpm - 1| < 1/100 ∧
    (playSynced alignDemoSlave alignDemoMaster).sample_position = 500000 ∧
    (playSynced alignDemoSlave alignDemoMaster).is_playing = true ∧
    (SyncManager.alignNow alignDemoSlave alignDemoMaster).sample_position = 486100 ∧
    ((500000 : ℤ) ≠ 486100) := by
  have h1 : Int.tmod 1000 22050 = 1000 := by decide
  have h2 : Int.tdiv 500000 22050 = 22 := by decide
  refine ⟨by norm_num [alignDemoMaster, alignDemoSlave], ?_, ?_, ?_, by norm_num⟩
  · norm_num [playSynced, Deck.setTempo, Deck.play, alignDemoMaster, alignDemoSlave]
  · norm_num [playSynced, Deck.setTempo, Deck.play, alignDemoMaster, alignDemoSlave]
  · norm_num [SyncManager.alignNow, Deck.setTempo, Deck.setSamplePosition,
      cppTrunc, alignDemoMaster, alignDemoSlave, h1, h2]

/-- C7 (amended): if either deck's BPM is ≤ 0, `play_synced` starts the
slave at its current cursor.  If the (saturated-before-check) tempo ratio
is within 0.01 of 1, the cued-start arithmetic is skipped and the slave is
simply played at its current cursor with its tempo set — no call to
`align_now` is made; the code relies on a prior host-side `sync_align_now`
having positioned the slave. -/
theorem playSynced_edge_cases (slave master : Deck) :
    ((master.bpm ≤ 0 ∨ slave.bpm ≤ 0) →
      playSynced slave master = { slave with is_playing := true }) ∧
    (0 < master.bpm → 0 < slave.bpm →
      |master.bpm / slave.bpm - 1| < 1/100 →
      playSynced slave master =
        { slave.setTempo (master.bpm / slave.bpm) with is_playing := true }) := by
  constructor
  · intro h
    simp only [playSynced]
    rw [if_pos h, Deck.play, if_neg (by norm_num)]
  · intro h1 h2 hnear
    simp only [playSynced]
    rw [if_neg (by push_neg; exact ⟨h1, h2⟩),
      if_pos hnear, Deck.play, if_neg (by norm_num)]

/-- Witness for C7 (amended): an unknown-BPM master makes `play_synced` a
plain play, and the equal-BPM pair takes the near-ratio-1 branch. -/
theorem playSynced_edge_cases_witness :
    playSynced alignDemoSlave ((Deck.init 44100).setBPM 0) =
      { alignDemoSlave with is_playing := true } ∧
    playSynced alignDemoSlave alignDemoMaster =
      { alignDemoSlave.setTempo (alignDemoMaster.bpm / alignDemoSlave.bpm) with
        is_playing := true } :=
  ⟨(playSynced_edge_cases alignDemoSlave ((Deck.init 44100).setBPM 0)).1
      (Or.inl (by norm_num [Deck.setBPM, Deck.init])),
   (playSynced_edge_cases alignDemoSlave alignDemoMaster).2
      (by norm_num [alignDemoMaster]) (by norm_num [alignDemoSlave])
      (by norm_num [alignDemoMaster, alignDemoSlave])⟩

lemma setSamplePosition_sample_position (d : Deck) (pos : ℤ) (f : Bool) :
    (d.setSamplePosition pos f).sample_position = pos := by
  rw [Deck.setSamplePosition]
  split_ifs <;> rfl

lemma setSamplePosition_tempo (d : Deck) (pos : ℤ) (f : Bool) :
    (d.setSamplePosition pos f).tempo = d.tempo := by
  rw [Deck.setSamplePosition]
  split_ifs <;> rfl

/-- C2 (amended): `sync_align_now(slave, master)` matches the slave's
tempo to master.bpm / slave.bpm (saturated).  It does NOT copy the master's
cursor: using the hard-coded 44100 Hz rate it re-positions the slave inside
its current (tempo-adjusted) beat at the master's phase — the new cursor is
non-negative, lies less than one slave beat ahead of the old cursor, its
remainder past the slave's offset equals the truncated master-phase
fraction of the slave beat, so the two phases agree to within one frame —
and the slave's stretcher is NOT flushed when the cursor jump stays within
one second of frames (`setSamplePosition` is called without `forceSync`).
Stated for positive BPMs, positive truncated beat lengths, a non-negative
truncated slave offset and a cursor at or past that offset. -/
theorem alignNow_phase_alignment (slave master : Deck) (mspb sspb moff soff : ℤ)
    (hmoff : cppTrunc (master.beat_offset * ((44100:ℤ) : ℚ)) = moff)
    (hmspb : cppTrunc (60 / master.bpm * ((44100:ℤ) : ℚ)) = mspb)
    (hsoff : cppTrunc (slave.beat_offset * ((44100:ℤ) : ℚ)) = soff)
    (hsspb : cppTrunc (60 / (slave.bpm * (master.bpm / slave.bpm)) * ((44100:ℤ) : ℚ)) = sspb)
    (hmb : 0 < master.bpm) (hsb : 0 < slave.bpm)
    (hmspb_pos : 0 < mspb) (hsspb_pos : 0 < sspb)
    (hsoff_nn : 0 ≤ soff) (hadj : soff ≤ slave.sample_position) :
    (SyncManager.alignNow slave master).tempo =
      max (1/2) (min (master.bpm / slave.bpm) 2) ∧
    0 ≤ (SyncManager.alignNow slave master).sample_position ∧
    (SyncManager.alignNow slave master).sample_position <
      slave.sample_position + sspb ∧
    ((SyncManager.alignNow slave master).sample_position - soff) % sspb =
      cppTrunc (phaseFrac master.sample_position moff mspb * (sspb : ℚ)) ∧
    |phaseFrac (SyncManager.alignNow slave master).sample_position soff sspb -
      phaseFrac master.sample_position moff mspb| < 1 / (sspb : ℚ) ∧
    (|(SyncManager.alignNow slave master).sample_position - slave.sample_position| ≤
        slave.sample_rate →
      (SyncManager.alignNow slave master).stretcher = slave.stretcher) := by
  have hbpmguard : ¬ (master.bpm ≤ 0 ∨ slave.bpm ≤ 0) := by
    push_neg
    exact ⟨hmb, hsb⟩
  have hq : (0:ℚ) < (sspb : ℚ) := by exact_mod_cast hsspb_pos
  have hmph_nn : 0 ≤ (((master.sample_position - moff) % mspb : ℤ) : ℚ) / (mspb : ℚ) := by
    have h1 : 0 ≤ (master.sample_position - moff) % mspb :=
      Int.emod_nonneg _ (by omega)
    positivity
  have hmph_lt1 : (((master.sample_position - moff) % mspb : ℤ) : ℚ) / (mspb : ℚ) < 1 := by
    rw [div_lt_one (by exact_mod_cast hmspb_pos)]
    exact_mod_cast Int.emod_lt_of_pos _ hmspb_pos
  have htr_nn : 0 ≤ cppTrunc ((((master.sample_position - moff) % mspb : ℤ) : ℚ) /
      (mspb : ℚ) * (sspb : ℚ)) :=
    cppTrunc_nonneg (mul_nonneg hmph_nn (le_of_lt hq))
  have htr_lt : cppTrunc ((((master.sample_position - moff) % mspb : ℤ) : ℚ) /
      (mspb : ℚ) * (sspb : ℚ)) < sspb := by
    have h1 : (cppTrunc ((((master.sample_position - moff) % mspb : ℤ) : ℚ) /
        (mspb : ℚ) * (sspb : ℚ)) : ℚ) ≤ (((master.sample_position - moff) % mspb : ℤ) : ℚ) /
        (mspb : ℚ) * (sspb : ℚ) := cppTrunc_le (mul_nonneg hmph_nn (le_of_lt hq))
    have h2 : (((master.sample_position - moff) % mspb : ℤ) : ℚ) / (mspb : ℚ) * (sspb : ℚ) <
        (sspb : ℚ) := by
      nlinarith
    exact_mod_cast lt_of_le_of_lt h1 h2
  have hb_nn : 0 ≤ Int.tdiv (slave.sample_position - soff) sspb := by
    rw [Int.tdiv_eq_ediv (by omega) (by omega)]
    exact Int.ediv_nonneg (by omega) (by omega)
  have hb_mul : Int.tdiv (slave.sample_position - soff) sspb * sspb ≤
      slave.sample_position - soff := by
    rw [Int.tdiv_eq_ediv (by omega) (by omega)]
    have h1 := Int.ediv_add_emod (slave.sample_position - soff) sspb
    have h2 := Int.emod_nonneg (slave.sample_position - soff) (show sspb ≠ 0 by omega)
    nlinarith [h1, h2]
  have hbspb_nn : 0 ≤ Int.tdiv (slave.sample_position - soff) sspb * sspb :=
    mul_nonneg hb_nn (by omega)
  have key : SyncManager.alignNow slave master =
      (slave.setTempo (master.bpm / slave.bpm)).setSamplePosition
        (soff + Int.tdiv (slave.sample_position - soff) sspb * sspb +
          cppTrunc ((((master.sample_position - moff) % mspb : ℤ) : ℚ) /
            (mspb : ℚ) * (sspb : ℚ)))
        false := by
    simp only [SyncManager.alignNow]
    rw [if_neg hbpmguard]
    simp only [setTempo_sample_position]
    rw [hmoff, hmspb, hsoff, hsspb, phase_fixup_q _ _ hmspb_pos]
    rw [if_pos ⟨by linarith, by linarith⟩]
  rw [key]
  have hemod : (soff + Int.tdiv (slave.sample_position - soff) sspb * sspb +
      cppTrunc ((((master.sample_position - moff) % mspb : ℤ) : ℚ) /
        (mspb : ℚ) * (sspb : ℚ)) - soff) % sspb =
      cppTrunc ((((master.sample_position - moff) % mspb : ℤ) : ℚ) /
        (mspb : ℚ) * (sspb : ℚ)) := by
    have harr : soff + Int.tdiv (slave.sample_position - soff) sspb * sspb +
        cppTrunc ((((master.sample_position - moff) % mspb : ℤ) : ℚ) /
          (mspb : ℚ) * (sspb : ℚ)) - soff =
        cppTrunc ((((master.sample_position - moff) % mspb : ℤ) : ℚ) /
          (mspb : ℚ) * (sspb : ℚ)) +
        Int.tdiv (slave.sample_position - soff) sspb * sspb := by ring
    rw [harr, Int.add_mul_emod_self]
    exact Int.emod_eq_of_lt htr_nn htr_lt
  refine ⟨?_, ?_, ?_, ?_, ?_, ?_⟩
  · rw [setSamplePosition_tempo, setTempo_tempo]
  · rw [setSamplePosition_sample_position]
    linarith
  · rw [setSamplePosition_sample_position]
    linarith
  · rw [setSamplePosition_sample_position]
    simp only [phaseFrac]
    exact hemod
  · rw [setSamplePosition_sample_position]
    simp only [phaseFrac]
    rw [hemod]
    have e1 : (cppTrunc ((((master.sample_position - moff) % mspb : ℤ) : ℚ) /
        (mspb : ℚ) * (sspb : ℚ)) : ℚ) / (sspb : ℚ) ≤
        (((master.sample_position - moff) % mspb : ℤ) : ℚ) / (mspb : ℚ) := by
      rw [div_le_iff₀ hq]
      exact cppTrunc_le (mul_nonneg hmph_nn (le_of_lt hq))
    have e2 : (((master.sample_position - moff) % mspb : ℤ) : ℚ) / (mspb : ℚ) <
        ((cppTrunc ((((master.sample_position - moff) % mspb : ℤ) : ℚ) /
          (mspb : ℚ) * (sspb : ℚ)) : ℚ) + 1) / (sspb : ℚ) := by
      rw [lt_div_iff₀ hq]
      exact lt_cppTrunc_add_one (mul_nonneg hmph_nn (le_of_lt hq))
    have e3 : ((cppTrunc ((((master.sample_position - moff) % mspb : ℤ) : ℚ) /
        (mspb : ℚ) * (sspb : ℚ)) : ℚ) + 1) / (sspb : ℚ) =
        (cppTrunc ((((master.sample_position - moff) % mspb : ℤ) : ℚ) /
          (mspb : ℚ) * (sspb : ℚ)) : ℚ) / (sspb : ℚ) + 1 / (sspb : ℚ) :=
      add_div _ _ _
    have h4 : (0:ℚ) < 1 / (sspb : ℚ) := by positivity
    rw [abs_lt]
    constructor
    · linarith
    · linarith
  · intro hjump
    rw [setSamplePosition_sample_position] at hjump
    rw [setSamplePosition_small_jump _ _ (by exact hjump)]
    rfl

/-- Witness for C2 (amended) on the 120/120 BPM pair: the realigned cursor
is non-negative and less than one 22050-frame beat ahead of the old
cursor. -/
theorem alignNow_phase_alignment_witness :
    0 ≤ (SyncManager.alignNow alignDemoSlave alignDemoMaster).sample_position ∧
    (SyncManager.alignNow alignDemoSlave alignDemoMaster).sample_position <
      alignDemoSlave.sample_position + 22050 := by
  have h := alignNow_phase_alignment alignDemoSlave alignDemoMaster 22050 22050 0 0
    (by norm_num [cppTrunc, alignDemoMaster])
    (by norm_num [cppTrunc, alignDemoMaster])
    (by norm_num [cppTrunc, alignDemoSlave])
    (by norm_num [cppTrunc, alignDemoSlave, alignDemoMaster])
    (by norm_num [alignDemoMaster]) (by norm_num [alignDemoSlave])
    (by norm_num) (by norm_num) (by norm_num) (by norm_num [alignDemoSlave])
  exact ⟨h.2.1, h.2.2.1⟩

/-- C4 (behaviour at end of track, exhibiting the missing notification):
the render callback can only ever hand position updates to the host — for
EVERY engine state and frame count, no track-ended notification is emitted
(the stored `track_ended_callback` has no call site anywhere in the code).
Concretely, on the three-frame track: the read that exhausts the source
fills the tail of the output with silence and leaves the cursor at
end-of-track, but the deck is still `Playing` after that read and only
flips to Paused on the following callback — and across both callbacks the
host receives zero track-ended notifications, where the claim requires
exactly one. -/
theorem track_end_emits_no_notification :
    (∀ (e : EngineState) (frames : ℕ),
      ((audioCallback e frames).2.all fun ev => !ev.isTrackEnded) = true) ∧
    (c4Deck.readSamples 4).2 =
      [((1:ℚ)/2, (1:ℚ)/2), ((1:ℚ)/4, (1:ℚ)/4), ((1:ℚ)/8, (1:ℚ)/8)] ++
        List.replicate 1 silentFrame ∧
    (c4Deck.readSamples 4).1.sample_position = c4Deck.totalSamples ∧
    (c4Deck.readSamples 4).1.is_playing = true ∧
    (audioCallback (audioCallback c4Engine 4).1 4).1.deck0.is_playing = false ∧
    (audioCallback (audioCallback c4Engine 4).1 4).1.deck0.sample_position = 3 ∧
    (audioCallback c4Engine 4).2 = [] ∧
    (audioCallback (audioCallback c4Engine 4).1 4).2 = [] := by
  refine ⟨?_, ?_, ?_, ?_, ?_, ?_, ?_, ?_⟩
  · intro e frames
    simp only [audioCallback]
    split_ifs <;> simp [HostEvent.isTrackEnded]
  all_goals
    norm_num [audioCallback, SyncManager.update, Mixer.mixReads, Deck.readSamples,
      Deck.scaleFrame, Deck.applyEQ, Deck.totalSamples, silentFrame, getDeck, setDeck,
      c4Engine, c4Deck, c4Track, EngineState.init, Deck.init, Mixer.init,
      SyncManager.init, Stretcher.clear, List.replicate, List.take, Int.toNat_ofNat]

/-- The feed loop never moves the cursor backwards. -/
theorem feedStretcher_le (frames : ℕ) (pcm : List Frame) (pos : ℤ) (playing : Bool)
    (st : Stretcher) : pos ≤ (feedStretcher frames pcm pos playing st).1 := by
  rw [feedStretcher]
  split_ifs with h1 h2
  · exact le_rfl
  · have hmin : (0:ℤ) ≤ min 4096 ((pcm.length : ℤ) - pos) :=
      le_min (by norm_num) (by omega)
    have ih := feedStretcher_le frames pcm (pos + min 4096 ((pcm.length : ℤ) - pos))
      playing
      (st.putSamples ((pcm.drop pos.toNat).take (min 4096 ((pcm.length : ℤ) - pos)).toNat))
    linarith
  · exact le_rfl
termination_by ((pcm.length : ℤ) - pos).toNat
decreasing_by omega

lemma play_nonneg (d : Deck) (s : ℤ) (h : 0 ≤ d.sample_position) :
    0 ≤ (d.play s).sample_position := by
  rw [Deck.play]
  split_ifs with hs
  · exact hs
  · exact h

lemma setPosition_bounds (d : Deck) (sec : ℚ) :
    0 ≤ (d.setPosition sec).sample_position ∧
    (d.setPosition sec).sample_position ≤ d.totalSamples := by
  constructor
  · exact le_max_left _ _
  · exact max_le (by simp [Deck.totalSamples]) (min_le_right _ _)

lemma playSynced_nonneg (slave master : Deck) (h : 0 ≤ slave.sample_position) :
    0 ≤ (playSynced slave master).sample_position := by
  simp only [playSynced]
  split_ifs <;> exact play_nonneg _ _ h

lemma alignNow_nonneg (slave master : Deck) (h : 0 ≤ slave.sample_position) :
    0 ≤ (SyncManager.alignNow slave master).sample_position := by
  simp only [SyncManager.alignNow]
  split_ifs <;>
    first
    | exact h
    | (rename_i hg
       rw [setSamplePosition_sample_position]
       exact hg.1)

lemma phaseCorrect_nonneg (S : Deck) (mp sp b r : ℚ) (h : 0 ≤ S.sample_position) :
    0 ≤ (SyncManager.phaseCorrect S mp sp b r).sample_position := by
  simp only [SyncManager.phaseCorrect]
  split_ifs <;>
    first
    | (rw [setSamplePosition_sample_position]; assumption)
    | exact h

lemma update_nonneg (sm : SyncManager) (p : Deck × Deck)
    (h1 : 0 ≤ p.1.sample_position) (h2 : 0 ≤ p.2.sample_position) :
    0 ≤ (SyncManager.update sm p).2.1.sample_position ∧
    0 ≤ (SyncManager.update sm p).2.2.sample_position := by
  simp only [SyncManager.update, getDeck, setDeck]
  split_ifs <;>
    refine ⟨?_, ?_⟩ <;>
    first
    | exact h1
    | exact h2
    | (apply phaseCorrect_nonneg; first | exact h1 | exact h2)

lemma readSamples_nonneg (d : Deck) (frames : ℕ) (h : 0 ≤ d.sample_position) :
    0 ≤ (d.readSamples frames).1.sample_position := by
  simp only [Deck.readSamples]
  split_ifs with h1 h2 h3
  · exact h
  · exact h
  · have hmin : (0:ℤ) ≤ min (frames : ℤ) (d.totalSamples - d.sample_position) :=
      le_min (by positivity) (by omega)
    have : 0 ≤ d.sample_position + min (frames : ℤ) (d.totalSamples - d.sample_position) := by
      linarith
    exact this
  · have hle := feedStretcher_le frames d.pcm d.sample_position d.is_playing d.stretcher
    linarith

lemma audioCallback_nonneg (e : EngineState) (frames : ℕ) (h : cursorsNonneg e) :
    cursorsNonneg (audioCallback e frames).1 := by
  have hu := update_nonneg e.sync_manager (e.deck0, e.deck1) h.1 h.2
  simp only [audioCallback, Mixer.mixReads, cursorsNonneg]
  split_ifs <;>
    exact ⟨readSamples_nonneg _ _ hu.1, readSamples_nonneg _ _ hu.2⟩

lemma withDeck_nonneg (e : EngineState) (i : ℤ) (f : Deck → Deck)
    (h : cursorsNonneg e)
    (hf : ∀ d : Deck, 0 ≤ d.sample_position → 0 ≤ (f d).sample_position) :
    cursorsNonneg (e.withDeck i f) := by
  simp only [EngineState.withDeck, cursorsNonneg] at *
  split_ifs
  · exact ⟨hf _ h.1, h.2⟩
  · exact ⟨h.1, hf _ h.2⟩
  · exact h

lemma step_nonneg (e : EngineState) (op : EngineOp) (h : cursorsNonneg e) :
    cursorsNonneg (e.step op) := by
  cases op <;>
    simp only [EngineState.step, EngineState.withSlaveMaster]
  case loadTrack i pcm => exact withDeck_nonneg e i _ h (fun d hd => le_rfl)
  case unloadTrack i => exact withDeck_nonneg e i _ h (fun d hd => le_rfl)
  case play i => exact withDeck_nonneg e i _ h (fun d hd => play_nonneg d _ hd)
  case playSynced i j =>
    split_ifs with hg
    · exact withDeck_nonneg e i _ h (fun d hd => playSynced_nonneg d _ hd)
    · exact h
  case pause i => exact withDeck_nonneg e i _ h (fun d hd => hd)
  case stopDeck i => exact withDeck_nonneg e i _ h (fun d hd => le_rfl)
  case setPosition i sec =>
    exact withDeck_nonneg e i _ h (fun d hd => (setPosition_bounds d sec).1)
  case setVolume i v => exact withDeck_nonneg e i _ h (fun d hd => hd)
  case setTempo i t => exact withDeck_nonneg e i _ h (fun d hd => hd)
  case setPitch i sp => exact withDeck_nonneg e i _ h (fun d hd => hd)
  case setBPM i b => exact withDeck_nonneg e i _ h (fun d hd => hd)
  case setBeatOffset i o => exact withDeck_nonneg e i _ h (fun d hd => hd)
  case setEQLow i g => exact withDeck_nonneg e i _ h (fun d hd => hd)
  case setEQMid i g => exact withDeck_nonneg e i _ h (fun d hd => hd)
  case setEQHigh i g => exact withDeck_nonneg e i _ h (fun d hd => hd)
  case setCrossfader pos => exact h
  case syncEnable a b => exact h
  case syncDisable i => exact h
  case syncAlignNow a b =>
    split_ifs with hg
    · exact withDeck_nonneg e a _ h (fun d hd => alignNow_nonneg d _ hd)
    · exact h
  case render frames => exact audioCallback_nonneg e frames h

set_option maxRecDepth 4000 in
/-- Counterexample to C3 as stated: (a) `play` on a deck with no loaded
buffer still sets `playing = true`, so `playing = true` does not imply a
PCM buffer is present; (b) a sync position write can push the cursor past
`pcm.frames`: with the slave at the end of its 22050-frame track and half a
beat of phase error, the third-callback update moves the cursor to 24255 >
22050. -/
theorem invariant_violations_play_and_sync :
    ((Deck.init 44100).play (-1)).is_playing = true ∧
    ((Deck.init 44100).play (-1)).pcm = [] ∧
    (SyncManager.update c1Sm (c1Slave, c3Slave)).2.2.sample_position = 24255 ∧
    c3Slave.totalSamples = 22050 ∧ ((22050 : ℤ) < 24255) := by
  have h1 : Int.tmod (11025 : ℤ) 22050 = 11025 := by decide
  have h2 : Int.tmod (22050 : ℤ) 22050 = 0 := by decide
  have h3 : (1:ℚ)/50 < |1/2| := by
    rw [abs_of_pos] <;> norm_num
  have key : ∀ pcmData : List Frame,
      (SyncManager.update c1Sm (c1Slave, c3SlaveOn pcmData)).2.2.sample_position =
        24255 := by
    intro pcmData
    norm_num [SyncManager.update, SyncManager.phaseCorrect, getDeck, setDeck,
      Deck.setTempo, Deck.getPhase, Deck.setSamplePosition, cppTrunc,
      c1Sm, c1Slave, c3SlaveOn, h1, h2, h3]
  refine ⟨?_, ?_, ?_, ?_, by norm_num⟩
  · rw [Deck.play, if_neg (by norm_num)]
  · rw [Deck.play, if_neg (by norm_num)]
    rfl
  · exact key (List.replicate 22050 silentFrame)
  · rw [c3Slave, Deck.totalSamples]
    rw [show (c3SlaveOn (List.replicate 22050 silentFrame)).pcm =
      List.replicate 22050 silentFrame from rfl]
    rw [List.length_replicate]
    norm_cast

/-- C3 (amended): for any sequence of host-ABI control operations and
render callbacks, `0 ≤ cursor_frames` always holds on both decks (every
cursor write is clamped or guarded non-negative), and a host seek
(`set_position`) additionally lands inside `[0, pcm.frames]`.  The claimed
upper bound `cursor_frames ≤ pcm.frames` is NOT maintained by sync
position writes, and `play` on an unloaded deck does set `playing = true`,
so `playing = true` does not imply a buffer is present (see the
counterexample). -/
theorem cursor_nonneg_invariant (e : EngineState) (ops : List EngineOp)
    (h : cursorsNonneg e) :
    cursorsNonneg (e.run ops) ∧
    (∀ (d : Deck) (sec : ℚ), 0 ≤ (d.setPosition sec).sample_position ∧
      (d.setPosition sec).sample_position ≤ d.totalSamples) := by
  constructor
  · induction ops generalizing e with
    | nil => exact h
    | cons op rest ih => exact ih _ (step_nonneg e op h)
  · exact fun d sec => setPosition_bounds d sec

/-- Witness for C3 (amended): a concrete session — play deck 0, seek it,
align deck 1 to it, render — keeps both cursors non-negative. -/
theorem cursor_nonneg_invariant_witness :
    cursorsNonneg ((EngineState.init 44100).run
      [EngineOp.play 0, EngineOp.setPosition 0 2, EngineOp.syncAlignNow 1 0,
       EngineOp.render 4]) :=
  (cursor_nonneg_invariant (EngineState.init 44100)
    [EngineOp.play 0, EngineOp.setPosition 0 2, EngineOp.syncAlignNow 1 0,
     EngineOp.render 4] ⟨le_rfl, le_rfl⟩).1

end DJMix
